import Mathlib

/-!
Verification of the StreetLevel filter-driven queue and playback engine.

The definitions below are a shallow embedding of the HomePage radio engine
(`src/unnamed/part_000`, with the legacy variant of `filtered` from
`src/app/page.tsx` and helpers shared with `src/unnamed/part_001`):
JavaScript strings stay `String`, nullable columns become `Option String`,
`Math.random`-driven choices become an explicit `rand : Nat → Nat` source,
and the Supabase fetches become `Except`-valued parameters.
-/

set_option maxHeartbeats 1000000

/-- Embedding of JavaScript `String.prototype.trim` (whitespace stripped from
both ends), implemented structurally over the character list. -/
def jsTrim (s : String) : String :=
  String.mk (((s.toList.dropWhile Char.isWhitespace).reverse.dropWhile
    Char.isWhitespace).reverse)

/-- Embedding of JavaScript `String.prototype.toLowerCase` (ASCII-faithful). -/
def jsLower (s : String) : String :=
  String.mk (s.toList.map Char.toLower)

/-- Embedding of JavaScript `String.prototype.toUpperCase` (ASCII-faithful). -/
def jsUpper (s : String) : String :=
  String.mk (s.toList.map Char.toUpper)

/-- Whether `pat` occurs at the front of `s`. -/
def startsWithChars : List Char → List Char → Bool
  | [], _ => true
  | _ :: _, [] => false
  | a :: as, b :: bs => a == b && startsWithChars as bs

/-- Whether `pat` occurs contiguously anywhere inside `s`. -/
def hasSubChars (pat : List Char) : List Char → Bool
  | [] => pat.isEmpty
  | c :: cs => startsWithChars pat (c :: cs) || hasSubChars pat cs

/-- Embedding of JavaScript `haystack.includes(needle)`. -/
def jsIncludes (haystack needle : String) : Bool :=
  hasSubChars needle.toList haystack.toList

/-- Embedding of `norm` from the source (renamed, since `norm` is taken by
Mathlib):
`(s ?? "").trim()`. -/
def normOpt (s : Option String) : String :=
  jsTrim (s.getD "")

/-- Splits a character list on a separator character, keeping empty segments,
as JavaScript `split(sep)` does. -/
def splitCharAux (sep : Char) : List Char → List Char → List (List Char)
  | [], acc => [acc.reverse]
  | c :: cs, acc =>
    if c = sep then acc.reverse :: splitCharAux sep cs []
    else splitCharAux sep cs (c :: acc)

/-- JavaScript `s.split(sep)` for a single-character separator. -/
def splitChar (sep : Char) (l : List Char) : List (List Char) :=
  splitCharAux sep l []

/-- Splits a character list into maximal whitespace-free words, dropping the
separators, used to embed `replace(/\s+/g, " ").trim()`. -/
def wordsWsAux : List Char → List Char → List (List Char)
  | [], acc => if acc.isEmpty then [] else [acc.reverse]
  | c :: cs, acc =>
    if c.isWhitespace then
      if acc.isEmpty then wordsWsAux cs [] else acc.reverse :: wordsWsAux cs []
    else wordsWsAux cs (c :: acc)

/-- Embedding of `normSpaces` from the source: collapse every whitespace run to one space
and trim the ends. -/
def normSpaces (s : String) : String :=
  String.intercalate " " ((wordsWsAux s.toList []).map String.mk)

/-- The minor words of `toTitleCaseSmart`. -/
def minorWords : List String :=
  ["and", "or", "the", "a", "an", "of", "to", "in", "on", "at", "for", "with"]

/-- One hyphen part of `toTitleCaseSmart`: empty parts stay empty, minor words
stay lower-case except at the very front, everything else is capitalized. -/
def titlePart (idx pIdx : Nat) (p : List Char) : String :=
  match p with
  | [] => ""
  | c :: rest =>
    if minorWords.contains (String.mk (c :: rest)) ∧ ¬(idx = 0 ∧ pIdx = 0) then
      String.mk (c :: rest)
    else
      String.mk (c.toUpper :: rest)

/-- Embedding of `toTitleCaseSmart` from the source: normalize spaces, lower-case, then
title-case each space-separated word hyphen-part by hyphen-part. -/
def toTitleCaseSmart (input : String) : String :=
  let s := jsLower (normSpaces input)
  if s = "" then ""
  else
    String.intercalate " " (((splitChar ' ' s.toList).enum).map (fun iw =>
      String.intercalate "-" (((splitChar '-' iw.2).enum).map (fun ip =>
        titlePart iw.1 ip.1 ip.2))))

/-- Code-point lexicographic comparison of character lists, the embedding of
the `localeCompare`-driven sort order (kernel-computable, unlike the
iterator-based order of `String`). -/
def lexLeb : List Char → List Char → Bool
  | [], _ => true
  | _ :: _, [] => false
  | a :: as, b :: bs => if a = b then lexLeb as bs else decide (a < b)

/-- Lexicographic string comparison used by the option-list sorts. -/
def strLeb (s t : String) : Bool :=
  lexLeb s.toList t.toList

/-- The candidate sort used for option lists (`Array.from(set).sort(...)`),
embedded as a stable insertion sort by the string order. -/
def sortStrings (l : List String) : List String :=
  l.insertionSort (fun a b => strLeb a b = true)

/-- JavaScript `Array.from(new Set(list)).sort(...)`: duplicates removed, then
sorted. -/
def jsSetSorted (l : List String) : List String :=
  sortStrings l.dedup

/-- Swap of two positions of a list, the body of one Fisher–Yates step
(`[a[i], a[j]] = [a[j], a[i]]`); out-of-range indices leave the list alone. -/
def listSwap (l : List α) (i j : Nat) : List α :=
  match l[i]?, l[j]? with
  | some x, some y => (l.set i y).set j x
  | _, _ => l

/-- The Fisher–Yates loop of `shuffle`, counting `i` down to `1`; the random
draw `Math.floor(Math.random() * (i + 1))` is supplied by `rand`, reduced
modulo `i + 1` exactly as the multiplication bounds it in the source. -/
def shuffleFrom (rand : Nat → Nat) (a : List α) : Nat → List α
  | 0 => a
  | i + 1 => shuffleFrom rand (listSwap a (i + 1) (rand (i + 1) % (i + 2))) i

/-- Embedding of `shuffle` from the source: Fisher–Yates over a copy of the array. -/
def shuffle (rand : Nat → Nat) (l : List α) : List α :=
  shuffleFrom rand l (l.length - 1)

/-- One row of the `tracks` table as selected by the home page
(`TrackRow` in the source); nullable columns are `Option String`. -/
structure TrackRow where
  id : String
  title : String
  country : Option String
  province : Option String
  neighbourhood : Option String
  city : String
  genre : String
  is_radio : Bool
  band_slug : String
  file_path : String
  art_path : Option String
  created_at : String
deriving DecidableEq, Repr

/-- Embedding of `TrackView` from the source: a track row extended with resolved media
URLs. -/
structure TrackView where
  id : String
  title : String
  country : Option String
  province : Option String
  neighbourhood : Option String
  city : String
  genre : String
  is_radio : Bool
  band_slug : String
  file_path : String
  art_path : Option String
  created_at : String
  url : String
  artUrl : String
  flyerUrl : String
deriving DecidableEq, Repr

/-- One row of the `events` table as selected by the home page. -/
structure EventRow where
  id : String
  city : Option String
  genre : Option String
  show_date : String
  flyer_path : Option String
  track_id : Option String
  created_at : String
deriving DecidableEq, Repr

/-- The external storage collaborator: `getPublicUrl` for the three buckets
plus the time-dependent `withCacheBust`, all consumed as opaque resolvers. -/
structure StorageEnv where
  trackUrl : String → String
  artUrl : String → String
  flyerUrl : String → String
  cacheBust : String → String

/-- Embedding of `getArtworkUrl` from the source: `""` for a missing or empty path. -/
def getArtworkUrl (env : StorageEnv) : Option String → String
  | none => ""
  | some p => if p = "" then "" else env.artUrl p

/-- The `whereStep` cursor of the progressive location picker. -/
inductive WhereStep where
  | country
  | province
  | city
  | neighbourhood
deriving DecidableEq, Repr

/-- The component state of `HomePage` that the queue and playback engine
reads and writes (media element modeled by its paused flag and position). -/
structure HomeState where
  status : String
  q : String
  genre : String
  country : String
  province : String
  city : String
  neighbourhood : String
  whereStep : WhereStep
  date : String
  offlineMode : Bool
  eventMode : Bool
  eventGenreOptions : List String
  eventCityOptions : List String
  tracks : List TrackView
  masterGenres : List String
  queue : List TrackView
  nowPlaying : Option TrackView
  autoplayBlocked : Bool
  filtersOpen : Bool
  hasStarted : Bool
  audioPaused : Bool
  audioCurrentTime : Nat
deriving DecidableEq, Repr

/-- The initial `useState` values of `HomePage`. -/
def homeInit : HomeState where
  status := ""
  q := ""
  genre := ""
  country := ""
  province := ""
  city := ""
  neighbourhood := ""
  whereStep := .country
  date := ""
  offlineMode := false
  eventMode := false
  eventGenreOptions := []
  eventCityOptions := []
  tracks := []
  masterGenres := []
  queue := []
  nowPlaying := none
  autoplayBlocked := false
  filtersOpen := true
  hasStarted := false
  audioPaused := true
  audioCurrentTime := 0

/-- The `filtered` memo of the current home page (`part_000`): with no active
filter dimension the candidate list passes through unchanged, otherwise each
non-empty dimension must match by lower-cased substring containment. -/
def filtered (st : HomeState) : List TrackView :=
  let qq := jsLower (jsTrim st.q)
  let co := jsLower (jsTrim st.country)
  let pr := jsLower (jsTrim st.province)
  let cc := jsLower (jsTrim st.city)
  let nb := jsLower (jsTrim st.neighbourhood)
  let gg := jsLower (jsTrim st.genre)
  let hasFilter := qq ≠ "" ∨ co ≠ "" ∨ pr ≠ "" ∨ cc ≠ "" ∨ nb ≠ "" ∨
    gg ≠ "" ∨ jsTrim st.date ≠ ""
  if ¬hasFilter then st.tracks
  else
    st.tracks.filter (fun t =>
      (qq = "" ∨ jsIncludes (jsLower t.title) qq = true ∨
        jsIncludes (jsLower t.band_slug) qq = true) ∧
      (co = "" ∨ jsIncludes (jsLower (t.country.getD "")) co = true) ∧
      (pr = "" ∨ jsIncludes (jsLower (t.province.getD "")) pr = true) ∧
      (cc = "" ∨ jsIncludes (jsLower t.city) cc = true) ∧
      (nb = "" ∨ jsIncludes (jsLower (t.neighbourhood.getD "")) nb = true) ∧
      (gg = "" ∨ jsIncludes (jsLower t.genre) gg = true))

/-- The `filtered` memo of the legacy home page (`src/app/page.tsx`,
lines 315–342): with no active filter dimension it yields the empty list,
and the event date is not a filter dimension there. -/
def filteredLegacy (st : HomeState) : List TrackView :=
  let qq := jsLower (jsTrim st.q)
  let co := jsLower (jsTrim st.country)
  let pr := jsLower (jsTrim st.province)
  let cc := jsLower (jsTrim st.city)
  let nb := jsLower (jsTrim st.neighbourhood)
  let gg := jsLower (jsTrim st.genre)
  let hasFilter := qq ≠ "" ∨ co ≠ "" ∨ pr ≠ "" ∨ cc ≠ "" ∨ nb ≠ "" ∨ gg ≠ ""
  if ¬hasFilter then []
  else
    st.tracks.filter (fun t =>
      (qq = "" ∨ jsIncludes (jsLower t.title) qq = true ∨
        jsIncludes (jsLower t.band_slug) qq = true) ∧
      (co = "" ∨ jsIncludes (jsLower (t.country.getD "")) co = true) ∧
      (pr = "" ∨ jsIncludes (jsLower (t.province.getD "")) pr = true) ∧
      (cc = "" ∨ jsIncludes (jsLower t.city) cc = true) ∧
      (nb = "" ∨ jsIncludes (jsLower (t.neighbourhood.getD "")) nb = true) ∧
      (gg = "" ∨ jsIncludes (jsLower t.genre) gg = true))

/-- The queue-rebuild effect (`useEffect` on `[filtered]`): an empty filtered
list stops everything; otherwise the queue is replaced by a fresh shuffle and
playback is stopped when the playing id is no longer in it. -/
def rebuildQueue (rand : Nat → Nat) (st : HomeState) : HomeState :=
  let f := filtered st
  if f.length = 0 then
    { st with
      queue := []
      nowPlaying := none
      autoplayBlocked := false
      audioPaused := true
      audioCurrentTime := 0 }
  else
    let shuffled := shuffle rand f
    let st1 := { st with queue := shuffled }
    match st.nowPlaying with
    | some np =>
      if shuffled.any (fun t => t.id == np.id) then st1
      else
        { st1 with
          nowPlaying := none
          autoplayBlocked := false
          audioPaused := true
          audioCurrentTime := 0 }
    | none => st1

/-- Embedding of `playTrack` from the source: a queued track is cut out of the queue at its
first index and played; a stale track gets a fresh shuffled queue built from
the filtered list with itself excluded. -/
def playTrack (rand : Nat → Nat) (st : HomeState) (t : TrackView) : HomeState :=
  let q0 := st.queue
  let idx := q0.findIdx (fun x => x.id == t.id)
  if idx < q0.length then
    { st with queue := q0.take idx ++ q0.drop (idx + 1), nowPlaying := some t }
  else
    { st with
      queue := (shuffle rand (filtered st)).filter (fun x => x.id != t.id)
      nowPlaying := some t }

/-- Embedding of `pickCountry` from the source. -/
def pickCountry (st : HomeState) (v : String) : HomeState :=
  { st with
    country := toTitleCaseSmart v
    province := ""
    city := ""
    neighbourhood := ""
    whereStep := .province }

/-- Embedding of `pickProvince` from the source. -/
def pickProvince (st : HomeState) (v : String) : HomeState :=
  { st with
    province := toTitleCaseSmart v
    city := ""
    neighbourhood := ""
    whereStep := .city }

/-- Embedding of `pickCity` from the source. -/
def pickCity (st : HomeState) (v : String) : HomeState :=
  { st with
    city := toTitleCaseSmart v
    neighbourhood := ""
    whereStep := .neighbourhood }

/-- Embedding of `pickNeighbourhood` from the source. -/
def pickNeighbourhood (st : HomeState) (v : String) : HomeState :=
  { st with neighbourhood := toTitleCaseSmart v, whereStep := .neighbourhood }

/-- Embedding of `resetBelow` from the source: clears the levels strictly below the tapped
breadcrumb step and moves the cursor back to it. -/
def resetBelow (st : HomeState) : WhereStep → HomeState
  | .country =>
    { st with
      province := ""
      city := ""
      neighbourhood := ""
      whereStep := .country }
  | .province =>
    { st with city := "", neighbourhood := "", whereStep := .province }
  | .city => { st with neighbourhood := "", whereStep := .city }
  | .neighbourhood => { st with whereStep := .neighbourhood }

/-- The event filter of event-radio mode: city and genre of the event must
contain the selected city and genre as lower-cased substrings. -/
def eventFiltered (st : HomeState) (evs : List EventRow) : List EventRow :=
  evs.filter (fun e =>
    jsIncludes (jsLower (e.city.getD "")) (jsLower (jsTrim st.city)) &&
    jsIncludes (jsLower (e.genre.getD "")) (jsLower (jsTrim st.genre)))

/-- Embedding of `filteredEvents.map((e) => e.track_id).filter(Boolean)`: the showcase
track ids of the matching events, dropping null and empty ids. -/
def eventTrackIds (evs : List EventRow) : List String :=
  (evs.filterMap (fun e => e.track_id)).filter (fun s => s ≠ "")

/-- The `flyerByTrackId` map of event mode: the flyer path stored by the last
matching event row whose `track_id` is truthy (later `Map.set` wins). -/
def flyerPathFor (evs : List EventRow) (tid : String) : Option String :=
  ((evs.filter (fun e => (e.track_id.getD "") ≠ "" && e.track_id == some tid)).getLast?).bind
    (fun e => e.flyer_path)

/-- Maps a fetched track row to a `TrackView` in ambient radio mode. -/
def mkAmbientView (env : StorageEnv) (r : TrackRow) : TrackView where
  id := r.id
  title := r.title
  country := r.country
  province := r.province
  neighbourhood := r.neighbourhood
  city := r.city
  genre := r.genre
  is_radio := r.is_radio
  band_slug := r.band_slug
  file_path := r.file_path
  art_path := r.art_path
  created_at := r.created_at
  url := env.trackUrl r.file_path
  artUrl := getArtworkUrl env r.art_path
  flyerUrl := ""

/-- Maps a fetched track row to a `TrackView` in event radio mode, attaching
the cache-busted flyer of its event when one exists. -/
def mkEventView (env : StorageEnv) (filteredEvents : List EventRow)
    (r : TrackRow) : TrackView :=
  let base := mkAmbientView env r
  { base with
    flyerUrl :=
      match flyerPathFor filteredEvents r.id with
      | some p => if p = "" then "" else env.cacheBust (env.flyerUrl p)
      | none => "" }

/-- The `setMasterGenres` merge of ambient mode: previously seen genres
(trimmed, non-empty) united with the genres of the newly mapped tracks,
deduplicated and sorted. -/
def mergeGenres (prev : List String) (mapped : List TrackView) : List String :=
  jsSetSorted (((prev.map jsTrim).filter (fun g => g ≠ "")) ++
    ((mapped.map (fun t => jsTrim t.genre)).filter (fun g => g ≠ "")))

/-- The genre option list built from all events of the chosen date. -/
def eventGenreSet (evs : List EventRow) : List String :=
  jsSetSorted ((evs.map (fun e => normOpt e.genre)).filter (fun g => g ≠ ""))

/-- The city option list built from all events of the chosen date. -/
def eventCitySet (evs : List EventRow) : List String :=
  jsSetSorted ((evs.map (fun e => normOpt e.city)).filter (fun c => c ≠ ""))

/-- Embedding of `loadTracks` from the current home page, with the three Supabase queries
supplied as explicit `Except`-valued inputs: offline mode refuses to refresh;
a chosen date enters event mode (options from every event of the date, then
the date+city+genre gate, then the showcase-track fetch); otherwise the
ambient RPC result replaces the candidate list and feeds `masterGenres`. -/
def loadTracks (env : StorageEnv) (st : HomeState)
    (eventsFetch : Except String (List EventRow))
    (tracksFetch : List String → Except String (List TrackRow))
    (rpcFetch : Except String (List TrackRow)) : HomeState :=
  if st.offlineMode then
    { st with status := "Offline mode: not refreshing from server." }
  else
    let st0 := { st with status := "Loading..." }
    if st0.date ≠ "" then
      let st1 := { st0 with eventMode := true }
      match eventsFetch with
      | .error msg =>
        { st1 with
          status := "Event load error: " ++ msg
          tracks := []
          eventGenreOptions := []
          eventCityOptions := [] }
      | .ok evs =>
        let st2 := { st1 with
          eventGenreOptions := eventGenreSet evs
          eventCityOptions := eventCitySet evs }
        if jsTrim st2.city = "" ∨ jsTrim st2.genre = "" then
          { st2 with
            tracks := []
            status := "Pick a date + city + genre to see event radio songs." }
        else
          let fes := eventFiltered st2 evs
          let trackIds := eventTrackIds fes
          if trackIds.length = 0 then
            { st2 with
              tracks := []
              status := "No events found for " ++ st2.date ++ " with " ++
                st2.city ++ " + " ++ st2.genre ++ "." }
          else
            match tracksFetch trackIds with
            | .error msg =>
              { st2 with status := "Tracks load error: " ++ msg, tracks := [] }
            | .ok ts =>
              let mapped := ts.map (mkEventView env fes)
              { st2 with
                tracks := mapped
                status := "Event radio for " ++ st2.date }
    else
      let st1 := { st0 with
        eventMode := false
        eventGenreOptions := []
        eventCityOptions := [] }
      match rpcFetch with
      | .error msg => { st1 with status := "Load error: " ++ msg }
      | .ok data =>
        let mapped := data.map (mkAmbientView env)
        { st1 with
          tracks := mapped
          masterGenres := mergeGenres st1.masterGenres mapped
          status := if mapped.length ≠ 0 then "" else "No radio tracks yet." }

/-- The `genreOptions` memo: event mode offers the event genres; ambient mode
offers the stable `masterGenres` set with the current selection kept
visible, behind a leading empty option. -/
def genreOptions (st : HomeState) : List String :=
  if st.date ≠ "" then "" :: st.eventGenreOptions
  else
    let s := (st.masterGenres.map jsTrim).filter (fun g => g ≠ "")
    let s := if jsTrim st.genre ≠ "" then s ++ [jsTrim st.genre] else s
    "" :: jsSetSorted s

/-- URL query parameters, as a partial map from key to value. -/
def UrlParams := String → Option String

/-- The `setOrDel` helper of `syncUrl`: a truthy trimmed value is written
(trimmed), anything else deletes the key. -/
def setOrDel (u : UrlParams) (k v : String) : UrlParams :=
  fun k2 =>
    if k2 = k then (if v ≠ "" ∧ jsTrim v ≠ "" then some (jsTrim v) else none)
    else u k2

/-- Overwrites one query parameter, for stating what a reader ignores. -/
def setParam (u : UrlParams) (k v : String) : UrlParams :=
  fun k2 => if k2 = k then some v else u k2

/-- Embedding of `syncUrl` from the current home page: writes the seven text filters via
`setOrDel` and the offline flag as `"1"`, leaving every other parameter of
the location untouched. -/
def syncUrl (st : HomeState) (u : UrlParams) : UrlParams :=
  let u1 := setOrDel u "country" st.country
  let u2 := setOrDel u1 "province" st.province
  let u3 := setOrDel u2 "city" st.city
  let u4 := setOrDel u3 "neighbourhood" st.neighbourhood
  let u5 := setOrDel u4 "genre" st.genre
  let u6 := setOrDel u5 "date" st.date
  let u7 := setOrDel u6 "q" st.q
  fun k2 =>
    if k2 = "offline" then (if st.offlineMode then some "1" else none)
    else u7 k2

/-- The URL rehydration effect of the current home page: each recognized
parameter, when present and non-empty, is copied into state; the offline flag
accepts `"1"` or a case-insensitive `"true"`; the location cursor jumps to
the deepest supplied level; any filter opens the radio view. -/
def rehydrate (u : UrlParams) (st : HomeState) : HomeState :=
  let co := (u "country").getD ""
  let pr := (u "province").getD ""
  let ci := (u "city").getD ""
  let nb := (u "neighbourhood").getD ""
  let g := (u "genre").getD ""
  let d := (u "date").getD ""
  let qq := (u "q").getD ""
  let off := (u "offline").getD ""
  let st := if co ≠ "" then { st with country := co } else st
  let st := if pr ≠ "" then { st with province := pr } else st
  let st := if ci ≠ "" then { st with city := ci } else st
  let st := if nb ≠ "" then { st with neighbourhood := nb } else st
  let st := if g ≠ "" then { st with genre := g } else st
  let st := if d ≠ "" then { st with date := d } else st
  let st := if qq ≠ "" then { st with q := qq } else st
  let st := if off = "1" ∨ jsLower off = "true" then
    { st with offlineMode := true } else st
  let st :=
    if nb ≠ "" then { st with whereStep := .neighbourhood }
    else if ci ≠ "" then { st with whereStep := .city }
    else if pr ≠ "" then { st with whereStep := .province }
    else { st with whereStep := .country }
  if co ≠ "" ∨ pr ≠ "" ∨ ci ≠ "" ∨ nb ≠ "" ∨ g ≠ "" ∨ d ≠ "" ∨ qq ≠ "" ∨
      off ≠ "" then
    { st with filtersOpen := false, hasStarted := true }
  else st

/-- A storage environment that resolves every reference to itself, for
concrete evaluations. -/
def envId : StorageEnv where
  trackUrl := fun s => s
  artUrl := fun s => s
  flyerUrl := fun s => s
  cacheBust := fun s => s

/-- A degenerate randomness source (always draws index 0). -/
def rand0 : Nat → Nat := fun _ => 0

/-- Sample track used in concrete scenarios. -/
def trackA : TrackView where
  id := "a"
  title := "Alpha"
  country := some "Canada"
  province := some "Ontario"
  neighbourhood := some "Vanier"
  city := "Ottawa"
  genre := "Punk"
  is_radio := true
  band_slug := "alpha-band"
  file_path := "a.mp3"
  art_path := none
  created_at := "2025-01-01"
  url := ""
  artUrl := ""
  flyerUrl := ""

/-- Sample track used in concrete scenarios. -/
def trackB : TrackView :=
  { trackA with id := "b", title := "Bravo", band_slug := "bravo-band" }

/-- Sample track used in concrete scenarios. -/
def trackC : TrackView :=
  { trackA with id := "c", title := "Charlie", band_slug := "charlie-band" }

/-- Sample event row used in concrete scenarios. -/
def eventE : EventRow where
  id := "e1"
  city := some "Ottawa"
  genre := some "Punk"
  show_date := "2025-06-01"
  flyer_path := none
  track_id := some "a"
  created_at := "2025-01-01"

theorem perm_set_cons {cs : List α} {k : Nat} {y : α} (h : cs[k]? = some y)
    (c : α) : (y :: cs.set k c).Perm (c :: cs) := by
  induction cs generalizing k with
  | nil => simp at h
  | cons d ds ih =>
    cases k with
    | zero =>
      simp only [List.getElem?_cons_zero, Option.some.injEq] at h
      cases h
      simpa using List.Perm.swap c y ds
    | succ k =>
      simp only [List.getElem?_cons_succ] at h
      simp only [List.set_cons_succ]
      exact (List.Perm.swap d y (ds.set k c)).trans
        (((ih h).cons d).trans (List.Perm.swap c d ds))

theorem set_swap_perm : ∀ (l : List α) (i j : Nat) (hi : i < l.length)
    (hj : j < l.length), ((l.set i l[j]).set j l[i]).Perm l := by
  intro l
  induction l with
  | nil => intro i j hi hj; simp at hi
  | cons c cs ih =>
    intro i j hi hj
    cases i with
    | zero =>
      cases j with
      | zero => simp
      | succ m =>
        simp only [List.getElem_cons_zero, List.getElem_cons_succ,
          List.set_cons_zero, List.set_cons_succ]
        exact perm_set_cons (List.getElem?_eq_getElem _) c
    | succ k =>
      cases j with
      | zero =>
        simp only [List.getElem_cons_zero, List.getElem_cons_succ,
          List.set_cons_zero, List.set_cons_succ]
        exact perm_set_cons (List.getElem?_eq_getElem _) c
      | succ m =>
        simp only [List.getElem_cons_succ, List.set_cons_succ]
        exact (ih k m (Nat.lt_of_succ_lt_succ hi)
          (Nat.lt_of_succ_lt_succ hj)).cons c

theorem listSwap_perm (l : List α) (i j : Nat) : (listSwap l i j).Perm l := by
  rcases hx : l[i]? with _ | x
  · simp [listSwap, hx]
  · rcases hy : l[j]? with _ | y
    · simp [listSwap, hx, hy]
    · have hi : i < l.length := by
        by_contra h
        rw [List.getElem?_eq_none (Nat.le_of_not_lt h)] at hx
        cases hx
      have hj : j < l.length := by
        by_contra h
        rw [List.getElem?_eq_none (Nat.le_of_not_lt h)] at hy
        cases hy
      have ex : x = l[i] := by
        rw [List.getElem?_eq_getElem hi] at hx
        exact (Option.some.inj hx).symm
      have ey : y = l[j] := by
        rw [List.getElem?_eq_getElem hj] at hy
        exact (Option.some.inj hy).symm
      simp only [listSwap, hx, hy]
      rw [ex, ey]
      exact set_swap_perm l i j hi hj

theorem shuffleFrom_perm (rand : Nat → Nat) (a : List α) (n : Nat) :
    (shuffleFrom rand a n).Perm a := by
  induction n generalizing a with
  | zero => simp [shuffleFrom]
  | succ i ih =>
    exact (ih _).trans (listSwap_perm a (i + 1) (rand (i + 1) % (i + 2)))

theorem shuffle_perm (rand : Nat → Nat) (l : List α) :
    (shuffle rand l).Perm l :=
  shuffleFrom_perm rand l (l.length - 1)

theorem mem_shuffle {rand : Nat → Nat} {l : List α} {a : α} :
    a ∈ shuffle rand l ↔ a ∈ l :=
  (shuffle_perm rand l).mem_iff

theorem shuffle_map_perm (rand : Nat → Nat) (l : List α) (f : α → β) :
    ((shuffle rand l).map f).Perm (l.map f) :=
  (shuffle_perm rand l).map f

theorem take_append_drop_findIdx (p : α → Bool) :
    ∀ l : List α, (∃ x ∈ l, p x) →
      l.take (l.findIdx p) ++ l.drop (l.findIdx p + 1) = l.eraseP p := by
  intro l
  induction l with
  | nil => intro h; simp at h
  | cons c cs ih =>
    intro h
    by_cases hc : p c
    · simp [List.findIdx_cons, hc]
    · have hcs : ∃ x ∈ cs, p x := by
        rcases h with ⟨x, hx, hpx⟩
        rcases List.mem_cons.mp hx with rfl | hx2
        · exact absurd hpx hc
        · exact ⟨x, hx2, hpx⟩
      simp only [List.findIdx_cons, hc, cond_false, List.take_succ_cons,
        List.drop_succ_cons, List.eraseP_cons_of_neg hc, List.cons_append]
      rw [ih hcs]

theorem any_id_eq_iff {l : List TrackView} {i : String} :
    (l.any (fun t => t.id == i)) = true ↔ i ∈ l.map (fun t => t.id) := by
  simp only [List.any_eq_true, List.mem_map, beq_iff_eq]

theorem filtered_sublist (st : HomeState) : (filtered st).Sublist st.tracks := by
  unfold filtered
  dsimp only
  split
  · exact List.Sublist.refl _
  · exact List.filter_sublist _

/-- C5 (amended): every location-select call clears all levels strictly deeper
than the one it sets — `pickCountry` empties province, city and neighbourhood,
`pickProvince` empties city and neighbourhood, `pickCity` empties the
neighbourhood — but no call requires the shallower levels to be set. -/
theorem claim5_drilldown_clears_deeper (st : HomeState) (v : String) :
    ((pickCountry st v).province = "" ∧ (pickCountry st v).city = "" ∧
      (pickCountry st v).neighbourhood = "" ∧
      (pickCountry st v).whereStep = WhereStep.province) ∧
    ((pickProvince st v).city = "" ∧ (pickProvince st v).neighbourhood = "" ∧
      (pickProvince st v).whereStep = WhereStep.city) ∧
    ((pickCity st v).neighbourhood = "" ∧
      (pickCity st v).whereStep = WhereStep.neighbourhood) ∧
    ((pickNeighbourhood st v).city = st.city ∧
      (pickNeighbourhood st v).whereStep = WhereStep.neighbourhood) := by
  refine ⟨⟨rfl, rfl, rfl, rfl⟩, ⟨rfl, rfl, rfl⟩, ⟨rfl, rfl⟩, rfl, rfl⟩

/-- C5 (counterexample): `pickNeighbourhood` on a state whose city is empty
produces a non-empty neighbourhood without a city, so the claim's conclusion
that a neighbourhood value never exists without its city fails. -/
theorem claim5_counterexample :
    (pickNeighbourhood homeInit "Vanier").neighbourhood = "Vanier" ∧
    (pickNeighbourhood homeInit "Vanier").city = "" := by
  constructor
  · decide
  · decide

/-- C6 (amended): `resetBelow level` clears exactly the levels strictly deeper
than `level` and moves the cursor to `level`; the value stored at `level`
itself is kept (in particular the province survives `resetBelow province`). -/
theorem claim6_resetBelow_clears_strictly_deeper (st : HomeState) :
    resetBelow st WhereStep.country =
      { st with
        province := ""
        city := ""
        neighbourhood := ""
        whereStep := WhereStep.country } ∧
    resetBelow st WhereStep.province =
      { st with
        city := ""
        neighbourhood := ""
        whereStep := WhereStep.province } ∧
    resetBelow st WhereStep.city =
      { st with neighbourhood := "", whereStep := WhereStep.city } ∧
    resetBelow st WhereStep.neighbourhood =
      { st with whereStep := WhereStep.neighbourhood } :=
  ⟨rfl, rfl, rfl, rfl⟩

/-- C6 (counterexample): after `resetBelow province` the province value is
still there, not cleared as the claim states. -/
theorem claim6_counterexample :
    (resetBelow { homeInit with province := "Ontario" }
      WhereStep.province).province ≠ "" := by
  decide

/-- C7: when the requested track is present in the current queue (by id),
`playTrack` makes it the playing item and removes exactly that first matching
occurrence, keeping the remaining entries in their relative order (the new
queue is a sublist of the old one with exactly one element gone). -/
theorem claim7_playSpecific_removes_and_plays (rand : Nat → Nat)
    (st : HomeState) (t : TrackView) (h : ∃ x ∈ st.queue, x.id = t.id) :
    (playTrack rand st t).nowPlaying = some t ∧
    (playTrack rand st t).queue = st.queue.eraseP (fun x => x.id == t.id) ∧
    ((playTrack rand st t).queue).Sublist st.queue ∧
    ((playTrack rand st t).queue).length + 1 = st.queue.length := by
  have hex : ∃ x ∈ st.queue, (fun x => x.id == t.id) x = true := by
    rcases h with ⟨x, hx, hid⟩
    exact ⟨x, hx, by simpa [beq_iff_eq] using hid⟩
  have hidx : st.queue.findIdx (fun x => x.id == t.id) < st.queue.length :=
    List.findIdx_lt_length_of_exists hex
  have hq : (playTrack rand st t).queue =
      st.queue.eraseP (fun x => x.id == t.id) := by
    unfold playTrack
    dsimp only
    rw [if_pos hidx]
    exact take_append_drop_findIdx _ st.queue hex
  have hnp : (playTrack rand st t).nowPlaying = some t := by
    unfold playTrack
    dsimp only
    rw [if_pos hidx]
  have hlen : (st.queue.eraseP (fun x => x.id == t.id)).length + 1 =
      st.queue.length := by
    rcases hex with ⟨x, hx, hpx⟩
    rw [List.length_eraseP_of_mem hx hpx]
    have : 0 < st.queue.length := Nat.lt_of_le_of_lt (Nat.zero_le _) hidx
    omega
  exact ⟨hnp, hq, hq ▸ List.eraseP_sublist _, hq ▸ hlen⟩

/-- The scenario state for C7: queue `[A, B, C]`, nothing playing. -/
def stC7 : HomeState := { homeInit with queue := [trackA, trackB, trackC] }

/-- C7 (witness): with queue `[A, B, C]` and nothing playing,
`playTrack B` yields `nowPlaying = B` and queue `[A, C]`. -/
theorem claim7_witness :
    (∃ x ∈ stC7.queue, x.id = trackB.id) ∧
    (playTrack rand0 stC7 trackB).nowPlaying = some trackB ∧
    (playTrack rand0 stC7 trackB).queue = [trackA, trackC] := by
  have h : ∃ x ∈ stC7.queue, x.id = trackB.id := ⟨trackB, by decide, rfl⟩
  refine ⟨h, (claim7_playSpecific_removes_and_plays rand0 stC7 trackB h).1, ?_⟩
  rw [(claim7_playSpecific_removes_and_plays rand0 stC7 trackB h).2.1]
  decide

/-- C3 (amended): with every filter dimension empty, the current home page's
`filtered` view is the full candidate list unchanged, while the legacy
`filtered` of `src/app/page.tsx` (lines 315–342) instead returns the empty
list. -/
theorem claim3_empty_filter_pass_through (st : HomeState)
    (hq : jsTrim st.q = "") (hco : jsTrim st.country = "")
    (hpr : jsTrim st.province = "") (hci : jsTrim st.city = "")
    (hnb : jsTrim st.neighbourhood = "") (hg : jsTrim st.genre = "")
    (hd : jsTrim st.date = "") :
    filtered st = st.tracks ∧ filteredLegacy st = [] := by
  have e : jsLower "" = "" := rfl
  constructor
  · simp [filtered, hq, hco, hpr, hci, hnb, hg, hd, e]
  · simp [filteredLegacy, hq, hco, hpr, hci, hnb, hg, e]

/-- A non-empty candidate list paired with a fully empty filter state. -/
def stC3 : HomeState := { homeInit with tracks := [trackA] }

/-- C3 (witness): on a concrete non-empty candidate list with all filters
empty, the current `filtered` is the identity. -/
theorem claim3_witness :
    (jsTrim stC3.q = "" ∧ jsTrim stC3.date = "") ∧
    filtered stC3 = stC3.tracks := by
  refine ⟨⟨by decide, by decide⟩, ?_⟩
  exact (claim3_empty_filter_pass_through stC3 (by decide) (by decide)
    (by decide) (by decide) (by decide) (by decide) (by decide)).1

/-- C3 (counterexample): the legacy `filtered` cited by the claim maps the
empty filter state to the empty list, not to the full candidate list. -/
theorem claim3_counterexample :
    filteredLegacy stC3 = [] ∧ filteredLegacy stC3 ≠ stC3.tracks ∧
    stC3.tracks = [trackA] ∧ jsTrim stC3.q = "" ∧ jsTrim stC3.genre = "" ∧
    jsTrim stC3.country = "" ∧ jsTrim stC3.province = "" ∧
    jsTrim stC3.city = "" ∧ jsTrim stC3.neighbourhood = "" ∧
    jsTrim stC3.date = "" := by
  decide

theorem rebuildQueue_of_empty (rand : Nat → Nat) (st : HomeState)
    (h : (filtered st).length = 0) :
    rebuildQueue rand st =
      { st with
        queue := []
        nowPlaying := none
        autoplayBlocked := false
        audioPaused := true
        audioCurrentTime := 0 } := by
  unfold rebuildQueue
  dsimp only
  rw [if_pos h]

theorem rebuildQueue_of_none (rand : Nat → Nat) (st : HomeState)
    (h : ¬(filtered st).length = 0) (hnp : st.nowPlaying = none) :
    rebuildQueue rand st = { st with queue := shuffle rand (filtered st) } := by
  unfold rebuildQueue
  dsimp only
  rw [if_neg h, hnp]

theorem rebuildQueue_of_kept (rand : Nat → Nat) (st : HomeState)
    (np : TrackView) (h : ¬(filtered st).length = 0)
    (hnp : st.nowPlaying = some np)
    (ha : (shuffle rand (filtered st)).any (fun t => t.id == np.id) = true) :
    rebuildQueue rand st = { st with queue := shuffle rand (filtered st) } := by
  unfold rebuildQueue
  dsimp only
  rw [if_neg h, hnp]
  dsimp only
  rw [if_pos ha]

theorem rebuildQueue_of_dropped (rand : Nat → Nat) (st : HomeState)
    (np : TrackView) (h : ¬(filtered st).length = 0)
    (hnp : st.nowPlaying = some np)
    (ha : ¬(shuffle rand (filtered st)).any (fun t => t.id == np.id) = true) :
    rebuildQueue rand st =
      { st with
        queue := shuffle rand (filtered st)
        nowPlaying := none
        autoplayBlocked := false
        audioPaused := true
        audioCurrentTime := 0 } := by
  unfold rebuildQueue
  dsimp only
  rw [if_neg h, hnp]
  dsimp only
  rw [if_neg ha]

/-- C1 (amended): a queue rebuild never introduces duplicate track ids (given
id-unique candidates), and the playing track survives the rebuild exactly
when its id is a member of the new queue — in particular a surviving playing
track IS an element of the rebuilt queue, not excluded from it. -/
theorem claim1_rebuild_nodup_and_membership (rand : Nat → Nat)
    (st : HomeState) (h : (st.tracks.map (fun t => t.id)).Nodup) :
    ((rebuildQueue rand st).queue.map (fun t => t.id)).Nodup ∧
    ∀ np, st.nowPlaying = some np →
      ((rebuildQueue rand st).nowPlaying = some np ↔
        np.id ∈ (rebuildQueue rand st).queue.map (fun t => t.id)) := by
  have hfil : ((filtered st).map (fun t => t.id)).Nodup :=
    List.Nodup.sublist (List.Sublist.map _ (filtered_sublist st)) h
  have hperm := shuffle_map_perm rand (filtered st) (fun t => t.id)
  have hshuf : ((shuffle rand (filtered st)).map (fun t => t.id)).Nodup :=
    hperm.nodup_iff.mpr hfil
  by_cases hf : (filtered st).length = 0
  · rw [rebuildQueue_of_empty rand st hf]
    constructor
    · simp
    · intro np hnp
      simp
  · cases hnp : st.nowPlaying with
    | none =>
      rw [rebuildQueue_of_none rand st hf hnp]
      refine ⟨hshuf, ?_⟩
      intro np hnp2
      cases hnp2
    | some np0 =>
      by_cases ha : (shuffle rand (filtered st)).any
          (fun t => t.id == np0.id) = true
      · rw [rebuildQueue_of_kept rand st np0 hf hnp ha]
        refine ⟨hshuf, ?_⟩
        intro np hnp2
        cases hnp2
        constructor
        · intro _
          exact any_id_eq_iff.mp ha
        · intro _
          exact hnp
      · rw [rebuildQueue_of_dropped rand st np0 hf hnp ha]
        refine ⟨hshuf, ?_⟩
        intro np hnp2
        cases hnp2
        constructor
        · intro hcontra
          cases hcontra
        · intro hm
          exact absurd (any_id_eq_iff.mpr hm) ha

/-- A state whose playing track is still in the (singleton) filtered list. -/
def stC1 : HomeState :=
  { homeInit with tracks := [trackA], nowPlaying := some trackA }

/-- C1 (counterexample): after a rebuild the still-playing track is an
element of the new queue, contradicting the claimed disjointness of the
queue from the currently playing item. -/
theorem claim1_counterexample :
    (rebuildQueue rand0 stC1).nowPlaying = some trackA ∧
    trackA.id ∈ (rebuildQueue rand0 stC1).queue.map (fun t => t.id) := by
  decide

/-- A two-track state with distinct ids and a playing track. -/
def stC1w : HomeState :=
  { homeInit with tracks := [trackA, trackB], nowPlaying := some trackA }

/-- C1 (witness): the amended rebuild theorem applied to a concrete state. -/
theorem claim1_witness :
    (stC1w.tracks.map (fun t => t.id)).Nodup ∧
    ((rebuildQueue rand0 stC1w).queue.map (fun t => t.id)).Nodup ∧
    ((rebuildQueue rand0 stC1w).nowPlaying = some trackA ↔
      trackA.id ∈ (rebuildQueue rand0 stC1w).queue.map (fun t => t.id)) := by
  have h : (stC1w.tracks.map (fun t => t.id)).Nodup := by decide
  have main := claim1_rebuild_nodup_and_membership rand0 stC1w h
  exact ⟨h, main.1, main.2 trackA (by decide)⟩

/-- C9: when the playing track's id is no longer in the filtered candidate
list, the rebuild effect stops playback: `nowPlaying` becomes `none`,
`autoplayBlocked` resets to `false`, and the media element is paused with its
position reset to zero. -/
theorem claim9_invalidated_playing_stops (rand : Nat → Nat) (st : HomeState)
    (np : TrackView) (h1 : st.nowPlaying = some np)
    (h2 : np.id ∉ (filtered st).map (fun t => t.id)) :
    (rebuildQueue rand st).nowPlaying = none ∧
    (rebuildQueue rand st).autoplayBlocked = false ∧
    (rebuildQueue rand st).audioCurrentTime = 0 ∧
    (rebuildQueue rand st).audioPaused = true := by
  by_cases hf : (filtered st).length = 0
  · rw [rebuildQueue_of_empty rand st hf]
    exact ⟨rfl, rfl, rfl, rfl⟩
  · have ha : ¬(shuffle rand (filtered st)).any
        (fun t => t.id == np.id) = true := by
      intro hA
      exact h2 (((shuffle_map_perm rand (filtered st)
        (fun t => t.id)).mem_iff).mp (any_id_eq_iff.mp hA))
    rw [rebuildQueue_of_dropped rand st np hf h1 ha]
    exact ⟨rfl, rfl, rfl, rfl⟩

/-- A state playing a track that the filtered candidate list does not
contain. -/
def stC9 : HomeState :=
  { homeInit with tracks := [trackA], nowPlaying := some trackB }

/-- C9 (witness): the stop-on-invalidation theorem at a concrete state. -/
theorem claim9_witness :
    (stC9.nowPlaying = some trackB ∧
      trackB.id ∉ (filtered stC9).map (fun t => t.id)) ∧
    ((rebuildQueue rand0 stC9).nowPlaying = none ∧
      (rebuildQueue rand0 stC9).autoplayBlocked = false ∧
      (rebuildQueue rand0 stC9).audioCurrentTime = 0) := by
  have main := claim9_invalidated_playing_stops rand0 stC9 trackB
    (by decide) (by decide)
  exact ⟨⟨by decide, by decide⟩, main.1, main.2.1, main.2.2.1⟩

theorem loadTracks_ambient_error (env : StorageEnv) (st : HomeState)
    (evf : Except String (List EventRow))
    (tf : List String → Except String (List TrackRow)) (msg : String)
    (h1 : st.offlineMode = false) (h2 : st.date = "") :
    loadTracks env st evf tf (.error msg) =
      { st with
        status := "Load error: " ++ msg
        eventMode := false
        eventGenreOptions := []
        eventCityOptions := [] } := by
  simp [loadTracks, h1, h2]

theorem loadTracks_event_error (env : StorageEnv) (st : HomeState)
    (tf : List String → Except String (List TrackRow))
    (rpc : Except String (List TrackRow)) (msg : String)
    (h1 : st.offlineMode = false) (h2 : st.date ≠ "") :
    loadTracks env st (.error msg) tf rpc =
      { st with
        status := "Event load error: " ++ msg
        eventMode := true
        tracks := []
        eventGenreOptions := []
        eventCityOptions := [] } := by
  simp [loadTracks, h1, h2]

theorem loadTracks_event_gated (env : StorageEnv) (st : HomeState)
    (evs : List EventRow) (tf : List String → Except String (List TrackRow))
    (rpc : Except String (List TrackRow))
    (h1 : st.offlineMode = false) (h2 : st.date ≠ "")
    (h3 : jsTrim st.city = "" ∨ jsTrim st.genre = "") :
    loadTracks env st (.ok evs) tf rpc =
      { st with
        status := "Pick a date + city + genre to see event radio songs."
        eventMode := true
        eventGenreOptions := eventGenreSet evs
        eventCityOptions := eventCitySet evs
        tracks := [] } := by
  rcases h3 with h3 | h3
  · simp [loadTracks, h1, h2, h3]
  · simp [loadTracks, h1, h2, h3]

theorem loadTracks_event_tracks_error (env : StorageEnv) (st : HomeState)
    (evs : List EventRow) (rpc : Except String (List TrackRow)) (msg : String)
    (h1 : st.offlineMode = false) (h2 : st.date ≠ "")
    (h3 : ¬jsTrim st.city = "") (h4 : ¬jsTrim st.genre = "")
    (h5 : eventTrackIds (eventFiltered st evs) ≠ []) :
    loadTracks env st (.ok evs) (fun _ => .error msg) rpc =
      { st with
        status := "Tracks load error: " ++ msg
        eventMode := true
        eventGenreOptions := eventGenreSet evs
        eventCityOptions := eventCitySet evs
        tracks := [] } := by
  have h5u : ¬eventTrackIds (List.filter (fun e =>
      jsIncludes (jsLower (e.city.getD "")) (jsLower (jsTrim st.city)) &&
      jsIncludes (jsLower (e.genre.getD "")) (jsLower (jsTrim st.genre)))
      evs) = [] := by
    simpa [eventFiltered] using h5
  simp [loadTracks, h1, h2, h3, h4, eventFiltered, h5u]

theorem loadTracks_ambient_ok (env : StorageEnv) (st : HomeState)
    (evf : Except String (List EventRow))
    (tf : List String → Except String (List TrackRow)) (data : List TrackRow)
    (h1 : st.offlineMode = false) (h2 : st.date = "") :
    loadTracks env st evf tf (.ok data) =
      { st with
        status := if (data.map (mkAmbientView env)).length ≠ 0 then ""
          else "No radio tracks yet."
        eventMode := false
        eventGenreOptions := []
        eventCityOptions := []
        tracks := data.map (mkAmbientView env)
        masterGenres := mergeGenres st.masterGenres
          (data.map (mkAmbientView env)) } := by
  simp [loadTracks, h1, h2]

/-- C2 (amended): every fetch failure sets a human-readable error status; in
ambient mode the candidate list is left untouched, but in event mode both the
events-query failure and the tracks-query failure clear the candidate list to
empty rather than leaving it unchanged. -/
theorem claim2_fetch_failure_handling :
    (∀ (env : StorageEnv) (st : HomeState) evf tf (msg : String),
      st.offlineMode = false → st.date = "" →
      (loadTracks env st evf tf (.error msg)).status = "Load error: " ++ msg ∧
      (loadTracks env st evf tf (.error msg)).tracks = st.tracks) ∧
    (∀ (env : StorageEnv) (st : HomeState) tf rpc (msg : String),
      st.offlineMode = false → st.date ≠ "" →
      (loadTracks env st (.error msg) tf rpc).status =
        "Event load error: " ++ msg ∧
      (loadTracks env st (.error msg) tf rpc).tracks = []) ∧
    (∀ (env : StorageEnv) (st : HomeState) evs rpc (msg : String),
      st.offlineMode = false → st.date ≠ "" →
      ¬jsTrim st.city = "" → ¬jsTrim st.genre = "" →
      eventTrackIds (eventFiltered st evs) ≠ [] →
      (loadTracks env st (.ok evs) (fun _ => .error msg) rpc).status =
        "Tracks load error: " ++ msg ∧
      (loadTracks env st (.ok evs) (fun _ => .error msg) rpc).tracks = []) := by
  refine ⟨?_, ?_, ?_⟩
  · intro env st evf tf msg h1 h2
    rw [loadTracks_ambient_error env st evf tf msg h1 h2]
    exact ⟨rfl, rfl⟩
  · intro env st tf rpc msg h1 h2
    rw [loadTracks_event_error env st tf rpc msg h1 h2]
    exact ⟨rfl, rfl⟩
  · intro env st evs rpc msg h1 h2 h3 h4 h5
    rw [loadTracks_event_tracks_error env st evs rpc msg h1 h2 h3 h4 h5]
    exact ⟨rfl, rfl⟩

/-- An event-mode state with a non-empty candidate list already loaded. -/
def stC2 : HomeState :=
  { homeInit with tracks := [trackA], date := "2025-06-01" }

/-- C2 (counterexample): an event-mode fetch failure overwrites the non-empty
candidate list with the empty list instead of leaving it unchanged. -/
theorem claim2_counterexample :
    stC2.tracks = [trackA] ∧
    (loadTracks envId stC2 (.error "boom") (fun _ => .ok [])
      (.ok [])).tracks = [] ∧
    (loadTracks envId stC2 (.error "boom") (fun _ => .ok [])
      (.ok [])).status = "Event load error: boom" := by
  decide

/-- An ambient-mode state with a non-empty candidate list already loaded. -/
def stC2w : HomeState := { homeInit with tracks := [trackA] }

/-- C2 (witness): the amended failure-handling theorem applied to concrete
ambient-mode and event-mode fetch failures. -/
theorem claim2_witness :
    ((loadTracks envId stC2w (.ok []) (fun _ => .ok [])
        (.error "down")).status = "Load error: down" ∧
      (loadTracks envId stC2w (.ok []) (fun _ => .ok [])
        (.error "down")).tracks = stC2w.tracks) ∧
    ((loadTracks envId stC2 (.error "boom") (fun _ => .ok [])
        (.ok [])).status = "Event load error: boom" ∧
      (loadTracks envId stC2 (.error "boom") (fun _ => .ok [])
        (.ok [])).tracks = []) := by
  refine ⟨?_, ?_⟩
  · exact claim2_fetch_failure_handling.1 envId stC2w (.ok []) (fun _ => .ok [])
      "down" (by decide) (by decide)
  · exact claim2_fetch_failure_handling.2.1 envId stC2 (fun _ => .ok [])
      (.ok []) "boom" (by decide) (by decide)

/-- C4: in event (date) mode with a successful events query, an empty city or
an empty genre forces an empty candidate list and the explanatory status
message, no matter which events exist for the date, and the result does not
depend on the tracks query at all (tracks are only fetched once both city and
genre are selected). -/
theorem claim4_event_gating (env : StorageEnv) (st : HomeState)
    (evs : List EventRow) (tf : List String → Except String (List TrackRow))
    (rpc : Except String (List TrackRow))
    (h1 : st.offlineMode = false) (h2 : st.date ≠ "")
    (h3 : jsTrim st.city = "" ∨ jsTrim st.genre = "") :
    (loadTracks env st (.ok evs) tf rpc).tracks = [] ∧
    (loadTracks env st (.ok evs) tf rpc).status =
      "Pick a date + city + genre to see event radio songs." ∧
    ∀ tf2, loadTracks env st (.ok evs) tf rpc =
      loadTracks env st (.ok evs) tf2 rpc := by
  refine ⟨?_, ?_, ?_⟩
  · rw [loadTracks_event_gated env st evs tf rpc h1 h2 h3]
  · rw [loadTracks_event_gated env st evs tf rpc h1 h2 h3]
  · intro tf2
    rw [loadTracks_event_gated env st evs tf rpc h1 h2 h3,
      loadTracks_event_gated env st evs tf2 rpc h1 h2 h3]

/-- An event-mode state for a date with an existing event but no city and no
genre selected. -/
def stC4 : HomeState := { homeInit with date := "2025-06-01" }

/-- C4 (witness): the gating theorem at a concrete date with an existing
event and neither city nor genre selected. -/
theorem claim4_witness :
    (stC4.city = "" ∧ stC4.genre = "" ∧ stC4.date ≠ "") ∧
    (loadTracks envId stC4 (.ok [eventE]) (fun _ => .ok [])
      (.ok [])).tracks = [] ∧
    (loadTracks envId stC4 (.ok [eventE]) (fun _ => .ok [])
      (.ok [])).status =
      "Pick a date + city + genre to see event radio songs." := by
  have main := claim4_event_gating envId stC4 [eventE] (fun _ => .ok [])
    (.ok []) (by decide) (by decide) (Or.inl (by decide))
  exact ⟨⟨by decide, by decide, by decide⟩, main.1, main.2.1⟩

theorem lexLeb_total : ∀ as bs : List Char,
    lexLeb as bs = true ∨ lexLeb bs as = true := by
  intro as
  induction as with
  | nil => intro bs; left; rfl
  | cons a as ih =>
    intro bs
    cases bs with
    | nil => right; rfl
    | cons b bs =>
      by_cases hab : a = b
      · subst hab
        rcases ih bs with h | h
        · left; simp [lexLeb, h]
        · right; simp [lexLeb, h]
      · rcases lt_or_gt_of_ne hab with h | h
        · left; simp [lexLeb, hab, h]
        · right
          simp [lexLeb, Ne.symm hab, h]

theorem lexLeb_trans : ∀ as bs cs : List Char, lexLeb as bs = true →
    lexLeb bs cs = true → lexLeb as cs = true := by
  intro as
  induction as with
  | nil => intro bs cs h1 h2; rfl
  | cons a as ih =>
    intro bs cs h1 h2
    cases bs with
    | nil => simp [lexLeb] at h1
    | cons b bs =>
      cases cs with
      | nil => simp [lexLeb] at h2
      | cons c cs =>
        by_cases hab : a = b
        · subst hab
          by_cases hbc : a = c
          · subst hbc
            simp only [lexLeb, if_pos rfl] at h1 h2 ⊢
            exact ih bs cs h1 h2
          · simp only [lexLeb, if_pos rfl] at h1
            simp only [lexLeb, if_neg hbc, decide_eq_true_eq] at h2 ⊢
            exact h2
        · by_cases hbc : b = c
          · subst hbc
            simp only [lexLeb, if_neg hab, decide_eq_true_eq] at h1 ⊢
            exact h1
          · simp only [lexLeb, if_neg hab, decide_eq_true_eq] at h1
            simp only [lexLeb, if_neg hbc, decide_eq_true_eq] at h2
            have hac : a < c := lt_trans h1 h2
            simp only [lexLeb, if_neg (ne_of_lt hac), decide_eq_true_eq]
            exact hac

instance instStrLebTotal : IsTotal String (fun a b => strLeb a b = true) :=
  ⟨fun a b => lexLeb_total a.toList b.toList⟩

instance instStrLebTrans : IsTrans String (fun a b => strLeb a b = true) :=
  ⟨fun a b c => lexLeb_trans a.toList b.toList c.toList⟩

theorem mem_jsSetSorted {g : String} {l : List String} :
    g ∈ jsSetSorted l ↔ g ∈ l := by
  unfold jsSetSorted sortStrings
  rw [(List.perm_insertionSort _ _).mem_iff]
  exact List.mem_dedup

theorem nodup_jsSetSorted (l : List String) : (jsSetSorted l).Nodup :=
  (List.perm_insertionSort _ _).nodup_iff.mpr (List.nodup_dedup l)

theorem sorted_jsSetSorted (l : List String) :
    (jsSetSorted l).Sorted (fun a b => strLeb a b = true) :=
  List.sorted_insertionSort _ _

theorem mem_mergeGenres_of_prev {prev : List String}
    {mapped : List TrackView} {g : String} (hg : g ∈ prev)
    (ht : jsTrim g = g) (hne : g ≠ "") : g ∈ mergeGenres prev mapped := by
  unfold mergeGenres
  rw [mem_jsSetSorted]
  refine List.mem_append_left _ (List.mem_filter.mpr ⟨?_, by simpa using hne⟩)
  exact List.mem_map.mpr ⟨g, hg, ht⟩

theorem mem_mergeGenres_of_new {prev : List String}
    {mapped : List TrackView} {t : TrackView} (hm : t ∈ mapped)
    (hne : jsTrim t.genre ≠ "") : jsTrim t.genre ∈ mergeGenres prev mapped := by
  unfold mergeGenres
  rw [mem_jsSetSorted]
  refine List.mem_append_right _
    (List.mem_filter.mpr ⟨?_, by simpa using hne⟩)
  exact List.mem_map.mpr ⟨t, hm, rfl⟩

theorem mem_genreOptions_current (st : HomeState) (hd : st.date = "")
    (hg : jsTrim st.genre ≠ "") : jsTrim st.genre ∈ genreOptions st := by
  unfold genreOptions
  rw [hd]
  simp only [ne_eq, not_true_eq_false, if_false, hg, if_true]
  refine List.mem_cons_of_mem _ (mem_jsSetSorted.mpr ?_)
  exact List.mem_append_right _ (List.mem_singleton.mpr rfl)

/-- C10: an ambient-mode reload merges, never replaces, the master genre
list: every previously seen genre survives a reload regardless of the new
result, every genre of the newly loaded tracks is added, the list stays
deduplicated and sorted, and the currently selected genre is always among the
offered options. -/
theorem claim10_master_genres_monotone (env : StorageEnv) (st : HomeState)
    (evf : Except String (List EventRow))
    (tf : List String → Except String (List TrackRow)) (data : List TrackRow)
    (h1 : st.offlineMode = false) (h2 : st.date = "")
    (hprev : ∀ g ∈ st.masterGenres, jsTrim g = g ∧ g ≠ "") :
    (∀ g ∈ st.masterGenres,
      g ∈ (loadTracks env st evf tf (.ok data)).masterGenres) ∧
    (∀ t ∈ (loadTracks env st evf tf (.ok data)).tracks, jsTrim t.genre ≠ "" →
      jsTrim t.genre ∈ (loadTracks env st evf tf (.ok data)).masterGenres) ∧
    (loadTracks env st evf tf (.ok data)).masterGenres.Nodup ∧
    (loadTracks env st evf tf (.ok data)).masterGenres.Sorted
      (fun a b => strLeb a b = true) ∧
    (jsTrim st.genre ≠ "" →
      jsTrim st.genre ∈ genreOptions (loadTracks env st evf tf (.ok data))) := by
  rw [loadTracks_ambient_ok env st evf tf data h1 h2]
  refine ⟨?_, ?_, nodup_jsSetSorted _, sorted_jsSetSorted _, ?_⟩
  · intro g hg
    exact mem_mergeGenres_of_prev hg (hprev g hg).1 (hprev g hg).2
  · intro t ht hne
    exact mem_mergeGenres_of_new ht hne
  · intro hg
    exact mem_genreOptions_current _ h2 hg

/-- An ambient state with a previously seen genre and a selected genre. -/
def stC10 : HomeState :=
  { homeInit with masterGenres := ["Jazz"], genre := "Punk" }

/-- A freshly fetched row whose genre was never seen before. -/
def rowM : TrackRow where
  id := "m"
  title := "Mu"
  country := none
  province := none
  neighbourhood := none
  city := "Ottawa"
  genre := "Metal"
  is_radio := true
  band_slug := "mu-band"
  file_path := "m.mp3"
  art_path := none
  created_at := "2025-01-01"

/-- C10 (witness): a concrete reload keeps the old genre, adds the new one,
and keeps the selected genre among the options. -/
theorem claim10_witness :
    "Jazz" ∈ (loadTracks envId stC10 (.ok []) (fun _ => .ok [])
      (.ok [rowM])).masterGenres ∧
    "Metal" ∈ (loadTracks envId stC10 (.ok []) (fun _ => .ok [])
      (.ok [rowM])).masterGenres ∧
    "Punk" ∈ genreOptions (loadTracks envId stC10 (.ok [])
      (fun _ => .ok []) (.ok [rowM])) := by
  have main := claim10_master_genres_monotone envId stC10 (.ok [])
    (fun _ => .ok []) [rowM] (by decide) (by decide) (by decide)
  refine ⟨main.1 "Jazz" (by decide), ?_, ?_⟩
  · have h2 := main.2.1 (mkAmbientView envId rowM) (by decide) (by decide)
    simpa using h2
  · have h5 := main.2.2.2.2 (by decide)
    simpa using h5

theorem setOrDel_ne (u : UrlParams) (k v k2 : String) (h : k2 ≠ k) :
    setOrDel u k v k2 = u k2 := by
  simp [setOrDel, h]

theorem setOrDel_self (u : UrlParams) (k v : String) :
    setOrDel u k v k =
      (if jsTrim v = "" then none else some (jsTrim v)) := by
  by_cases h : jsTrim v = ""
  · simp [setOrDel, h]
  · have hv : v ≠ "" := by
      intro hv0
      rw [hv0] at h
      exact h rfl
    simp [setOrDel, h, hv]

theorem setParam_ne (u : UrlParams) (k v k2 : String) (h : k2 ≠ k) :
    setParam u k v k2 = u k2 := by
  simp [setParam, h]

/-- C8 (amended): `syncUrl` serializes exactly the parameters `country`,
`province`, `city`, `neighbourhood`, `genre`, `date`, `q` and `offline` (each
written when non-empty, deleted when empty), and the rehydration effect reads
those same eight parameters back into state; the `event` parameter is neither
written by `syncUrl` nor read on load by this home page. -/
theorem claim8_url_round_trip (st : HomeState) (u : UrlParams)
    (p : UrlParams) (st0 : HomeState) :
    (syncUrl st u "country" =
        (if jsTrim st.country = "" then none else some (jsTrim st.country)) ∧
      syncUrl st u "province" =
        (if jsTrim st.province = "" then none else some (jsTrim st.province)) ∧
      syncUrl st u "city" =
        (if jsTrim st.city = "" then none else some (jsTrim st.city)) ∧
      syncUrl st u "neighbourhood" =
        (if jsTrim st.neighbourhood = "" then none
         else some (jsTrim st.neighbourhood)) ∧
      syncUrl st u "genre" =
        (if jsTrim st.genre = "" then none else some (jsTrim st.genre)) ∧
      syncUrl st u "date" =
        (if jsTrim st.date = "" then none else some (jsTrim st.date)) ∧
      syncUrl st u "q" =
        (if jsTrim st.q = "" then none else some (jsTrim st.q)) ∧
      syncUrl st u "offline" =
        (if st.offlineMode then some "1" else none) ∧
      syncUrl st u "event" = u "event") ∧
    ((rehydrate p st0).country =
        (if (p "country").getD "" ≠ "" then (p "country").getD ""
         else st0.country) ∧
      (rehydrate p st0).province =
        (if (p "province").getD "" ≠ "" then (p "province").getD ""
         else st0.province) ∧
      (rehydrate p st0).city =
        (if (p "city").getD "" ≠ "" then (p "city").getD "" else st0.city) ∧
      (rehydrate p st0).neighbourhood =
        (if (p "neighbourhood").getD "" ≠ "" then (p "neighbourhood").getD ""
         else st0.neighbourhood) ∧
      (rehydrate p st0).genre =
        (if (p "genre").getD "" ≠ "" then (p "genre").getD ""
         else st0.genre) ∧
      (rehydrate p st0).date =
        (if (p "date").getD "" ≠ "" then (p "date").getD "" else st0.date) ∧
      (rehydrate p st0).q =
        (if (p "q").getD "" ≠ "" then (p "q").getD "" else st0.q) ∧
      (rehydrate p st0).offlineMode =
        (if (p "offline").getD "" = "1" ∨
            jsLower ((p "offline").getD "") = "true" then true
         else st0.offlineMode)) ∧
    (∀ v, rehydrate (setParam p "event" v) st0 = rehydrate p st0) := by
  refine ⟨⟨?_, ?_, ?_, ?_, ?_, ?_, ?_, ?_, ?_⟩,
    ⟨?_, ?_, ?_, ?_, ?_, ?_, ?_, ?_⟩, ?_⟩
  · unfold syncUrl
    rw [if_neg (by decide : ¬("country" : String) = "offline"),
      setOrDel_ne _ _ _ _ (by decide), setOrDel_ne _ _ _ _ (by decide),
      setOrDel_ne _ _ _ _ (by decide), setOrDel_ne _ _ _ _ (by decide),
      setOrDel_ne _ _ _ _ (by decide), setOrDel_ne _ _ _ _ (by decide),
      setOrDel_self _ _ _]
  · unfold syncUrl
    rw [if_neg (by decide : ¬("province" : String) = "offline"),
      setOrDel_ne _ _ _ _ (by decide), setOrDel_ne _ _ _ _ (by decide),
      setOrDel_ne _ _ _ _ (by decide), setOrDel_ne _ _ _ _ (by decide),
      setOrDel_ne _ _ _ _ (by decide), setOrDel_self _ _ _]
  · unfold syncUrl
    rw [if_neg (by decide : ¬("city" : String) = "offline"),
      setOrDel_ne _ _ _ _ (by decide), setOrDel_ne _ _ _ _ (by decide),
      setOrDel_ne _ _ _ _ (by decide), setOrDel_ne _ _ _ _ (by decide),
      setOrDel_self _ _ _]
  · unfold syncUrl
    rw [if_neg (by decide : ¬("neighbourhood" : String) = "offline"),
      setOrDel_ne _ _ _ _ (by decide), setOrDel_ne _ _ _ _ (by decide),
      setOrDel_ne _ _ _ _ (by decide), setOrDel_self _ _ _]
  · unfold syncUrl
    rw [if_neg (by decide : ¬("genre" : String) = "offline"),
      setOrDel_ne _ _ _ _ (by decide), setOrDel_ne _ _ _ _ (by decide),
      setOrDel_self _ _ _]
  · unfold syncUrl
    rw [if_neg (by decide : ¬("date" : String) = "offline"),
      setOrDel_ne _ _ _ _ (by decide), setOrDel_self _ _ _]
  · unfold syncUrl
    rw [if_neg (by decide : ¬("q" : String) = "offline"),
      setOrDel_self _ _ _]
  · unfold syncUrl
    rw [if_pos rfl]
  · unfold syncUrl
    rw [if_neg (by decide : ¬("event" : String) = "offline"),
      setOrDel_ne _ _ _ _ (by decide), setOrDel_ne _ _ _ _ (by decide),
      setOrDel_ne _ _ _ _ (by decide), setOrDel_ne _ _ _ _ (by decide),
      setOrDel_ne _ _ _ _ (by decide), setOrDel_ne _ _ _ _ (by decide),
      setOrDel_ne _ _ _ _ (by decide)]
  · simp only [rehydrate, apply_ite (HomeState.country), ite_self]
  · simp only [rehydrate, apply_ite (HomeState.province), ite_self]
  · simp only [rehydrate, apply_ite (HomeState.city), ite_self]
  · simp only [rehydrate, apply_ite (HomeState.neighbourhood), ite_self]
  · simp only [rehydrate, apply_ite (HomeState.genre), ite_self]
  · simp only [rehydrate, apply_ite (HomeState.date), ite_self]
  · simp only [rehydrate, apply_ite (HomeState.q), ite_self]
  · simp only [rehydrate, apply_ite (HomeState.offlineMode), ite_self]
  · intro v
    unfold rehydrate
    rw [setParam_ne _ _ _ _ (by decide), setParam_ne _ _ _ _ (by decide),
      setParam_ne _ _ _ _ (by decide), setParam_ne _ _ _ _ (by decide),
      setParam_ne _ _ _ _ (by decide), setParam_ne _ _ _ _ (by decide),
      setParam_ne _ _ _ _ (by decide), setParam_ne _ _ _ _ (by decide)]

/-- A state with every shareable dimension set, for the serialization
counterexample. -/
def stC8 : HomeState :=
  { homeInit with
    country := "Canada"
    province := "Ontario"
    city := "Ottawa"
    neighbourhood := "Vanier"
    genre := "Punk"
    date := "2025-06-01"
    q := "kaz"
    offlineMode := true }

/-- The empty query string. -/
def emptyParams : UrlParams := fun _ => none

/-- C8 (counterexample): serializing a fully populated state writes no
`event` parameter (while writing the others), and rehydration ignores an
`event` parameter entirely. -/
theorem claim8_counterexample :
    syncUrl stC8 emptyParams "event" = none ∧
    syncUrl stC8 emptyParams "country" = some "Canada" ∧
    syncUrl stC8 emptyParams "date" = some "2025-06-01" ∧
    rehydrate (setParam emptyParams "event" "BIG NIGHT") homeInit =
      rehydrate emptyParams homeInit := by
  refine ⟨by decide, by decide, by decide, by decide⟩
